import Mathlib

/-!
A shallow embedding of the FastAPI entry point `src/main.py` of the
uk-pv-national-gsp-api repository: the static API metadata, the `ORIGINS`
environment parsing, the `X-Process-Time` timing middleware, the root
information endpoint, the ReDoc documentation renderer and the memoizing
OpenAPI schema customizer, together with theorems settling the specified
properties of each.
-/

namespace NowcastingAPI

/-- Static API title, `title = "Nowcasting API"` in the source. -/
def title : String := "Nowcasting API"

/-- Static API version, `version = "0.2.27"` in the source. -/
def version : String := "0.2.27"

/-- The long static description string assigned to `description` in the source. -/
def description : String := "\nAs part of Open Climate Fix’s [open source project](https://github.com/openclimatefix), the\nNowcasting API is still under development.\n\n#### General Overview\n\n__Nowcasting__ essentially means __forecasting for the next few hours__.\nOCF has built a predictive model that nowcasts solar energy generation for\nthe UK’s National Grid ESO (electricity system operator). National Grid runs more than\n300\n[GSPs](https://data.nationalgrideso.com/system/gis-boundaries-for-gb-grid-supply-points)\n(grid supply points), which are regionally located throughout the country.\nOCF\x27s Nowcasting App synthesizes real-time PV\ndata, numeric weather predictions (nwp), satellite imagery\n(looking at cloud cover),\nas well as GSP data to\nforecast how much solar energy will generated for a given GSP.\n\nHere are key aspects of the solar forecasts:\n- Forecasts are produced in 30-minute time steps, projecting GSP yields out to\neight hours ahead.\n- The geographic extent is all of Great Britain (GB).\n- Forecasts are produced at the GB National and regional level (using GSPs).\n\nOCF\x27s incredibly accurate, short-term forecasts allow National Grid to reduce the amount of\nspinning reserves they need to run at any given moment, ultimately reducing\ncarbon emmisions.\n\nIn order to get started with reading the API’s forecast objects, it might be helpful to\nknow that GSPs are referenced in the following ways:  gspId (ex. 122); gspName\n(ex. FIDF_1); gspGroup (ex. )\nregionName (ex. Fiddlers Ferry). The API provides information on when input data was\nlast updated as well as the installed photovoltaic (PV) megawatt capacity\n(installedCapacityMw) of each individual GSP.\n\nYou\x27ll find more detailed information for each route in the documentation below.\n\nIf you have any questions, please don\x27t hesitate to get in touch.\nAnd if you\x27re interested in contributing to our open source project, feel free to join us!\n"

/-! ### ORIGINS parsing (`origins = os.getenv("ORIGINS", "https://app.nowcasting.io").split(",")`) -/

/-- Splitting a character list at every occurrence of `sep`, keeping empty
pieces: the semantics of Python `str.split` with a one-character separator.
`splitChar sep [] = [[]]` mirrors `"".split(",") == [""]`. -/
def splitChar (sep : Char) : List Char → List (List Char)
  | [] => [[]]
  | c :: cs =>
    match splitChar sep cs with
    | [] => [[]]
    | g :: gs => if c = sep then [] :: g :: gs else (c :: g) :: gs

/-- Python `s.split(sep)` for a one-character separator `sep`, on Lean strings. -/
def pySplit (s : String) (sep : Char) : List String :=
  (splitChar sep s.data).map (fun l => String.mk l)

/-- The default used when the `ORIGINS` environment variable is unset. -/
def ORIGINS_default : String := "https://app.nowcasting.io"

/-- `origins = os.getenv("ORIGINS", "https://app.nowcasting.io").split(",")`.
The optional argument is the value of the `ORIGINS` environment variable
(`none` when unset, in which case `os.getenv` returns the default). -/
def origins (env_ORIGINS : Option String) : List String :=
  pySplit (env_ORIGINS.getD ORIGINS_default) ','

/-! ### Timing middleware (`add_process_time_header`) -/

/-- A response object: status code, body, and headers. The middleware only ever
writes the numeric `X-Process-Time` header, so header values are modelled by
the rational number their base-10 string denotes (Python `str` on a float
emits the shortest base-10 literal denoting exactly that float, so the string
and the number it denotes determine each other). -/
structure Response where
  status_code : Nat
  body : String
  headers : List (String × ℚ)

/-- An unhandled fault raised by the downstream handler chain. -/
inductive Fault where
  | exc : String → Fault

/-- `response.headers[k] = v`: replace the value of an existing header `k`,
or append the header when absent. -/
def setHeader (hs : List (String × ℚ)) (k : String) (v : ℚ) : List (String × ℚ) :=
  match hs with
  | [] => [(k, v)]
  | (k', v') :: rest => if k' = k then (k, v) :: rest else (k', v') :: setHeader rest k v

/-- The timing middleware. `start_time` and `end_time` are the two wall-clock
readings `time.time()` taken before and after awaiting `call_next`; the
downstream handler chain either returns a response or raises a fault, modelled
by `Except`. On the normal path the middleware sets
`response.headers["X-Process-Time"] = str(time.time() - start_time)` and
returns the response; a fault short-circuits past the remaining statements. -/
def add_process_time_header (start_time end_time : ℚ)
    (call_next : Except Fault Response) : Except Fault Response :=
  match call_next with
  | Except.error e => Except.error e
  | Except.ok response =>
    let process_time := end_time - start_time
    Except.ok { response with
      headers := setHeader response.headers "X-Process-Time" process_time }

/-! ### Root endpoint (`GET /`, `get_api_information`) -/

/-- The body returned by `GET /`: a dict literal with exactly four keys. -/
def get_api_information : List (String × String) :=
  [("title", "Nowcasting API"),
   ("version", version),
   ("description", description),
   ("documentation", "https://api.nowcasting.io/docs")]

/-! ### OpenAPI schema customizer (`custom_openapi`) -/

/-- Values of a JSON-like schema document: strings and string-keyed objects. -/
inductive SVal where
  | str : String → SVal
  | obj : List (String × SVal) → SVal

/-- Python dict assignment `d[k] = v`: replace the value at an existing key,
or append the binding when the key is absent. -/
def dictSet (d : List (String × SVal)) (k : String) (v : SVal) : List (String × SVal) :=
  match d with
  | [] => [(k, v)]
  | (k', v') :: rest => if k' = k then (k, v) :: rest else (k', v') :: dictSet rest k v

/-- The `contact` dict literal passed to `get_openapi` in the source. -/
def contact : List (String × SVal) :=
  [("name", SVal.str "Open Climate Fix"),
   ("url", SVal.str "https://openclimatefix.org"),
   ("email", SVal.str "info@openclimatefix.org")]

/-- The `license_info` dict literal passed to `get_openapi` in the source. -/
def license_info : List (String × SVal) :=
  [("name", SVal.str "MIT License"),
   ("url", SVal.str "https://github.com/openclimatefix/nowcasting_api/blob/main/LICENSE")]

/-- Modelled from the spec: FastAPI library function `fastapi.openapi.utils.get_openapi`
(not part of this repository), which builds a non-empty OpenAPI document whose
`info` object carries the given title, version, description, contact and
license metadata, alongside the route paths. -/
def get_openapi (title version description : String)
    (contact license_info : List (String × SVal)) : List (String × SVal) :=
  [("openapi", SVal.str "3.1.0"),
   ("info", SVal.obj
     [("title", SVal.str title),
      ("version", SVal.str version),
      ("description", SVal.str description),
      ("contact", SVal.obj contact),
      ("license", SVal.obj license_info)]),
   ("paths", SVal.obj [])]

/-- Python truthiness of `app.openapi_schema : Optional[dict]`: `None` and the
empty dict are falsy, a non-empty dict is truthy. -/
def pyTruthy : Option (List (String × SVal)) → Bool
  | none => false
  | some d => !d.isEmpty

/-- `openapi_schema["info"]["x-logo"] = logo`: update the dict stored at key
`"info"` by assigning `logo` at key `"x-logo"`. -/
def set_info_x_logo (schema : List (String × SVal)) (logo : SVal) : List (String × SVal) :=
  schema.map fun kv =>
    if kv.1 = "info" then
      match kv.2 with
      | SVal.obj info => ("info", SVal.obj (dictSet info "x-logo" logo))
      | v => ("info", v)
    else kv

/-- The memoizing schema generator `custom_openapi`. Its one piece of state is
`app.openapi_schema : Optional[dict]` (initially `None`); the function returns
the schema it serves together with the state it leaves behind. When the stored
schema is truthy it is returned as is; otherwise the schema is built by
`get_openapi`, the `x-logo` extension is injected into its `info` object, and
the result is stored. -/
def custom_openapi (app_openapi_schema : Option (List (String × SVal))) :
    List (String × SVal) × Option (List (String × SVal)) :=
  if pyTruthy app_openapi_schema then
    (app_openapi_schema.getD [], app_openapi_schema)
  else
    let openapi_schema := get_openapi title version description contact license_info
    let openapi_schema := set_info_x_logo openapi_schema
      (SVal.obj [("url", SVal.str "https://www.nowcasting.io/nowcasting.svg")])
    (openapi_schema, some openapi_schema)

/-! ### ReDoc documentation renderer (`get_redoc_html_with_theme`, `GET /newdocs`)

The HTML template literals below are the exact chunks of the Python f-strings,
with the interpolation holes removed; Python brace escapes are resolved
(so the CSS braces appear literally) and string concatenation of the chunks
with the parameters reproduces the source template byte for byte. -/

/-- Template up to the interpolated `title`. -/
def html_head_pre_title : String := "\n    <!DOCTYPE html>\n    <html>\n    <head>\n    <title>"

/-- Template from after `title` to the end of the first f-string chunk. -/
def html_head_post_title : String := "</title>\n    <!-- needed for adaptive design -->\n    <meta charset=\"utf-8\"/>\n    <meta name=\"viewport\" content=\"width=device-width, initial-scale=1\">\n    "

/-- The chunk appended when `with_google_fonts` is true. -/
def google_fonts_link : String := "\n    <link href=\"https://fonts.googleapis.com/css?family=Inter:300,400,700\" rel=\"stylesheet\">\n    "

/-- Template up to the interpolated `redoc_favicon_url`. -/
def html_icon_pre : String := "\n    <link rel=\"shortcut icon\" href=\""

/-- Template between `redoc_favicon_url` and `redoc_js_url`. -/
def html_icon_post : String := "\">\n    <!--\n    ReDoc doesn\x27t change outer page styles\n    -->\n    <style>\n      body \x7b\n        margin: 0;\n        padding: 0;\n      \x7d\n    </style>\n    </head>\n    <body>\n    <div id=\"redoc-container\"></div>\n    <noscript>\n        ReDoc requires Javascript to function. Please enable it to browse the documentation.\n    </noscript>\n    <script src=\""

/-- Template between `redoc_js_url` and the `Redoc.init` call. -/
def html_script_close : String := "\"> </script>\n    <script>\n        "

/-- The hardcoded theme object embedded in the page, a plain (non-f) string
in the source; `theme` never appears in it. -/
def theme_json : String := "\x7b\n            \"theme\": \x7b\n                \"colors\": \x7b\n                    \"primary\": \x7b\n                        \"main\": \"#f7ba17\",\n                        \"light\": \"#ffefc6\"\n                    \x7d,\n                    \"success\": \x7b\n                        \"main\": \"rgba(28, 184, 65, 1)\",\n                        \"light\": \"#81ec9a\",\n                        \"dark\": \"#083312\",\n                        \"contrastText\": \"#000\"\n                    \x7d,\n                    \"text\": \x7b\n                        \"primary\": \"#14120e\",\n                        \"secondary\": \"#4d4d4d\"\n                    \x7d,\n                    \"http\": \x7b\n                        \"get\": \"#f7ba17\",\n                        \"post\": \"rgba(28, 184, 65, 1)\",\n                        \"put\": \"rgba(255, 187, 0, 1)\",\n                        \"delete\": \"rgba(254, 39, 35, 1)\"\n                    \x7d\n                \x7d,\n                \"typography\": \x7b\n                    \"fontSize\": \"15px\",\n                    \"fontFamily\": \"Inter, sans-serif\",\n                    \"lineHeight\": \"1.5em\",\n                    \"headings\": \x7b\n                        \"fontFamily\": \"Inter, sans-serif\",\n                        \"fontWeight\": \"bold\",\n                        \"lineHeight\": \"1.5em\"\n                    \x7d,\n                    \"code\": \x7b\n                        \"fontWeight\": \"600\",\n                        \"color\": \"rgba(92, 62, 189, 1)\",\n                        \"wrap\": true\n                    \x7d,\n                    \"links\": \x7b\n                        \"color\": \"#086788\",\n                        \"visited\": \"#086788\",\n                        \"hover\": \"#32343a\"\n                    \x7d\n                \x7d,\n                \"sidebar\": \x7b\n                    \"width\": \"300px\",\n                    \"textColor\": \"#000000\"\n                \x7d,\n                \"logo\": \x7b\n                    \"gutter\": \"10px\"\n                \x7d,\n                \"rightPanel\": \x7b\n                    \"backgroundColor\": \"rgba(55, 53, 71, 1)\",\n                    \"textColor\": \"#ffffff\"\n                \x7d\n            \x7d\n        \x7d"

/-- The closing chunk of the template, after the theme object. -/
def html_tail : String := ", document.getElementById(\x27redoc-container\x27))\n    </script>\n    </body>\n    </html>\n    "

/-- The renderer `get_redoc_html_with_theme`. The Python keyword-only defaults
are `openapi_url="./openapi.json"`,
`redoc_js_url="https://cdn.jsdelivr.net/npm/redoc@next/bundles/redoc.standalone.js"`,
`redoc_favicon_url="/favicon.png"`, `with_google_fonts=True`,
`theme=\x7b\x7d`; here every argument is passed explicitly. The `theme`
parameter is accepted and never read, exactly as in the source. The result is
the body of the `HTMLResponse` the source returns. -/
def get_redoc_html_with_theme (openapi_url : String) (title : String)
    (redoc_js_url : String) (redoc_favicon_url : String)
    (with_google_fonts : Bool) (theme : List (String × String)) : String :=
  let html := html_head_pre_title ++ (title ++ html_head_post_title)
  let html := if with_google_fonts then html ++ google_fonts_link else html
  html ++ (html_icon_pre ++ (redoc_favicon_url ++ (html_icon_post ++ (redoc_js_url ++
    (html_script_close ++ ("Redoc.init(\"" ++ (openapi_url ++ ("\"" ++ (", " ++
    (theme_json ++ html_tail))))))))))

/-- The default `redoc_js_url` of the renderer. -/
def redoc_js_default : String := "https://cdn.jsdelivr.net/npm/redoc@next/bundles/redoc.standalone.js"

/-- The `GET /newdocs` endpoint `redoc_html`: calls the renderer with
`title=title`, `theme=\x7b\x7d` and every other parameter at its default. -/
def redoc_html : String :=
  get_redoc_html_with_theme "./openapi.json" title redoc_js_default "/favicon.png" true []

/-- `pat` occurs as a contiguous substring of `s`. -/
def containsSub (pat s : String) : Prop :=
  ∃ a b : String, s = a ++ (pat ++ b)

/-! ### Helper lemmas -/

theorem string_mk_data (s : String) : String.mk s.data = s := rfl

theorem splitChar_ne_nil (sep : Char) : ∀ l : List Char, splitChar sep l ≠ []
  | [] => by simp [splitChar]
  | c :: cs => by
    simp only [splitChar]
    cases splitChar sep cs with
    | nil => simp
    | cons g gs => by_cases hc : c = sep <;> simp [hc]

theorem splitChar_no_sep (sep : Char) : ∀ l : List Char, sep ∉ l → splitChar sep l = [l]
  | [] => fun _ => rfl
  | c :: cs => fun h => by
    have hc : ¬ c = sep := fun e => h (e ▸ List.mem_cons_self c cs)
    have ih := splitChar_no_sep sep cs (fun m => h (List.mem_cons_of_mem c m))
    simp [splitChar, ih, hc]

theorem lookup_setHeader (k : String) (v : ℚ) :
    ∀ hs : List (String × ℚ), List.lookup k (setHeader hs k v) = some v
  | [] => by simp [setHeader, List.lookup]
  | (k', v') :: rest => by
    by_cases h : k' = k
    · simp [setHeader, h, List.lookup]
    · have hbeq : (k == k') = false := beq_eq_false_iff_ne.mpr (Ne.symm h)
      simp [setHeader, h, List.lookup, hbeq, lookup_setHeader k v rest]

theorem containsSub_here (pat a b : String) : containsSub pat (a ++ (pat ++ b)) :=
  ⟨a, b, rfl⟩

theorem containsSub_here2 (p u v a b : String) :
    containsSub (p ++ (u ++ v)) (a ++ (p ++ (u ++ (v ++ b)))) :=
  ⟨a, b, by simp [String.append_assoc]⟩

theorem containsSub_left (x : String) {pat s : String} (h : containsSub pat s) :
    containsSub pat (x ++ s) := by
  obtain ⟨a, b, rfl⟩ := h
  exact ⟨x ++ a, b, by simp [String.append_assoc]⟩

theorem redoc_html_shape (openapi_url ttl redoc_js_url redoc_favicon_url : String)
    (with_google_fonts : Bool) (theme : List (String × String)) :
    get_redoc_html_with_theme openapi_url ttl redoc_js_url redoc_favicon_url
        with_google_fonts theme
      = html_head_pre_title ++ (ttl ++
        ((if with_google_fonts then html_head_post_title ++ google_fonts_link
          else html_head_post_title) ++
        (html_icon_pre ++ (redoc_favicon_url ++ (html_icon_post ++ (redoc_js_url ++
        (html_script_close ++ ("Redoc.init(\"" ++ (openapi_url ++ ("\"" ++ (", " ++
        (theme_json ++ html_tail)))))))))))) := by
  cases with_google_fonts <;>
    simp [get_redoc_html_with_theme, String.append_assoc]

/-! ### Claim theorems -/

/-- Claim C1: for every request whose downstream handler returns a response and
clock readings with the second no earlier than the first, the middleware
returns a response carrying an X-Process-Time header whose value is the
elapsed seconds, and that number is non-negative. -/
theorem C1_process_time_header (response : Response) (start_time end_time : ℚ)
    (h : start_time ≤ end_time) :
    ∃ r : Response,
      add_process_time_header start_time end_time (Except.ok response) = Except.ok r
        ∧ List.lookup "X-Process-Time" r.headers = some (end_time - start_time)
        ∧ 0 ≤ end_time - start_time :=
  ⟨_, rfl, lookup_setHeader "X-Process-Time" (end_time - start_time) response.headers,
    sub_nonneg.mpr h⟩

/-- Witness for C1 at a concrete response and clock readings 0 and 1. -/
theorem C1_process_time_header_witness :
    ∃ r : Response,
      add_process_time_header 0 1 (Except.ok (Response.mk 200 "ok" [])) = Except.ok r
        ∧ List.lookup "X-Process-Time" r.headers = some (1 - 0)
        ∧ (0:ℚ) ≤ 1 - 0 :=
  C1_process_time_header (Response.mk 200 "ok" []) 0 1 (by norm_num)

/-- Claim C2: GET / returns a body with exactly the four keys title, version,
description, documentation, in that order, with title "Nowcasting API" and
version "0.2.27". -/
theorem C2_root_information_fields :
    get_api_information.map Prod.fst = ["title", "version", "description", "documentation"]
      ∧ List.lookup "title" get_api_information = some "Nowcasting API"
      ∧ List.lookup "version" get_api_information = some "0.2.27" :=
  ⟨rfl, rfl, rfl⟩

/-- Claim C3: the schema generator is a memoizing state machine: starting uncached,
the first call builds the schema and stores exactly what it returns; calling
again on the resulting state returns the identical result and state; and in
any cached (truthy) state the stored schema is returned unchanged, with the
state unchanged. -/
theorem C3_openapi_memoized :
    custom_openapi ((custom_openapi none).2) = custom_openapi none
      ∧ (custom_openapi none).2 = some (custom_openapi none).1
      ∧ (∀ d : List (String × SVal), pyTruthy (some d) = true →
          custom_openapi (some d) = (d, some d)) := by
  refine ⟨rfl, rfl, ?_⟩
  intro d hd
  simp [custom_openapi, hd]

/-- Witness for C3 at a concrete non-empty cached schema. -/
theorem C3_openapi_memoized_witness :
    custom_openapi (some [("openapi", SVal.str "3.1.0")])
      = ([("openapi", SVal.str "3.1.0")], some [("openapi", SVal.str "3.1.0")]) :=
  C3_openapi_memoized.2.2 [("openapi", SVal.str "3.1.0")] rfl

/-- Claim C4: the schema built by the first call has an info object whose x-logo
field holds the configured logo URL, and whose contact and license fields
hold the injected contact and license metadata. -/
theorem C4_openapi_logo_contact_license :
    ∃ info : List (String × SVal),
      List.lookup "info" (custom_openapi none).1 = some (SVal.obj info)
        ∧ List.lookup "x-logo" info
            = some (SVal.obj [("url", SVal.str "https://www.nowcasting.io/nowcasting.svg")])
        ∧ List.lookup "contact" info = some (SVal.obj contact)
        ∧ List.lookup "license" info = some (SVal.obj license_info) :=
  ⟨_, rfl, rfl, rfl, rfl⟩

/-- Claim C5: ORIGINS set to "https://a.example,https://b.example" yields exactly
those two origins, and an unset ORIGINS yields exactly the default
https://app.nowcasting.io. -/
theorem C5_origins_split :
    origins (some "https://a.example,https://b.example")
        = ["https://a.example", "https://b.example"]
      ∧ origins none = ["https://app.nowcasting.io"] :=
  ⟨rfl, rfl⟩

/-- Claim C6: whatever the ORIGINS environment value (including unset), the origin
list is non-empty; and a value with no comma (one that is not a
comma-separated list) yields the single-element list holding the raw string. -/
theorem C6_origins_nonempty_raw :
    (∀ v : Option String, origins v ≠ [])
      ∧ (∀ s : String, ',' ∉ s.data → origins (some s) = [s]) := by
  constructor
  · intro v h
    exact splitChar_ne_nil ',' (v.getD ORIGINS_default).data
      (by simpa [origins, pySplit] using h)
  · intro s hs
    simp [origins, pySplit, splitChar_no_sep ',' s.data hs, string_mk_data]

/-- Witness for C6 at the malformed value "not a url". -/
theorem C6_origins_nonempty_raw_witness :
    origins (some "not a url") ≠ [] ∧ origins (some "not a url") = ["not a url"] :=
  ⟨C6_origins_nonempty_raw.1 (some "not a url"),
    C6_origins_nonempty_raw.2 "not a url" (by decide)⟩

/-- Claim C7: the documentation renderer is a pure function: the same parameters
give the identical string, and the produced HTML contains the title passed
in, the viewer script URL passed in, and the Redoc.init invocation on the
given schema URL; the page served at /newdocs references ./openapi.json. -/
theorem C7_redoc_renderer (openapi_url ttl redoc_js_url redoc_favicon_url : String)
    (with_google_fonts : Bool) (theme : List (String × String)) :
    get_redoc_html_with_theme openapi_url ttl redoc_js_url redoc_favicon_url
        with_google_fonts theme
      = get_redoc_html_with_theme openapi_url ttl redoc_js_url redoc_favicon_url
        with_google_fonts theme
      ∧ containsSub ttl (get_redoc_html_with_theme openapi_url ttl redoc_js_url
          redoc_favicon_url with_google_fonts theme)
      ∧ containsSub redoc_js_url (get_redoc_html_with_theme openapi_url ttl redoc_js_url
          redoc_favicon_url with_google_fonts theme)
      ∧ containsSub ("Redoc.init(\"" ++ (openapi_url ++ "\""))
          (get_redoc_html_with_theme openapi_url ttl redoc_js_url
            redoc_favicon_url with_google_fonts theme)
      ∧ containsSub "Redoc.init(\"./openapi.json\"" redoc_html := by
  refine ⟨rfl, ?_, ?_, ?_, ?_⟩
  · rw [redoc_html_shape]
    exact containsSub_here _ _ _
  · rw [redoc_html_shape]
    apply containsSub_left
    apply containsSub_left
    apply containsSub_left
    apply containsSub_left
    apply containsSub_left
    exact containsSub_here _ _ _
  · rw [redoc_html_shape]
    apply containsSub_left
    apply containsSub_left
    apply containsSub_left
    apply containsSub_left
    apply containsSub_left
    apply containsSub_left
    apply containsSub_left
    exact containsSub_here2 _ _ _ _ _
  · have hp : "Redoc.init(\"" ++ ("./openapi.json" ++ "\"")
        = "Redoc.init(\"./openapi.json\"" := rfl
    rw [← hp]
    simp only [redoc_html]
    rw [redoc_html_shape]
    apply containsSub_left
    apply containsSub_left
    apply containsSub_left
    apply containsSub_left
    apply containsSub_left
    apply containsSub_left
    apply containsSub_left
    exact containsSub_here2 _ _ _ _ _

/-- Claim C8: on the normal path the middleware changes only the headers field of
the response, setting X-Process-Time; the status code and the body are those
of the downstream response, unchanged. -/
theorem C8_middleware_frame (response : Response) (start_time end_time : ℚ) :
    ∃ r : Response,
      add_process_time_header start_time end_time (Except.ok response) = Except.ok r
        ∧ r.status_code = response.status_code
        ∧ r.body = response.body
        ∧ r.headers = setHeader response.headers "X-Process-Time" (end_time - start_time) :=
  ⟨_, rfl, rfl, rfl, rfl⟩

/-- Claim C9: when the downstream handler chain raises an unhandled fault, the
middleware propagates exactly that fault and performs no header mutation (no
response object is produced at all). -/
theorem C9_fault_propagates (e : Fault) (start_time end_time : ℚ) :
    add_process_time_header start_time end_time (Except.error e) = Except.error e := rfl

/-- Claim C10: the rendered HTML does not depend on the theme argument: any two
theme values give identical output, all other parameters equal. -/
theorem C10_theme_never_read (openapi_url ttl redoc_js_url redoc_favicon_url : String)
    (with_google_fonts : Bool) (theme1 theme2 : List (String × String)) :
    get_redoc_html_with_theme openapi_url ttl redoc_js_url redoc_favicon_url
        with_google_fonts theme1
      = get_redoc_html_with_theme openapi_url ttl redoc_js_url redoc_favicon_url
        with_google_fonts theme2 := rfl

end NowcastingAPI
